import Mathlib

/-!
Shallow embedding of the adaptive online-learning and recommendation core of
the lightninglens platform:

* `FeatureProcessor` — src/Lightning-Lens/lightning_lens/src/models/features.py
* `OnlineLearner`    — src/Lightning-Lens/lightning_lens/src/models/online_learner.py
* `SuggestionsService` — src/Lightning-Lens/lightning_lens/scripts/suggestions_service.py

Modelling choices, stated once here:

* DataFrames built by `pd.DataFrame(list_of_dicts)` are modelled as `List Event`;
  a field is `none` when the dict lacks the key, so "the column is present"
  means "some row carries the field".
* Numeric cells are modelled as `PFloat`: a finite rational, plus or minus
  infinity, or NaN, with numpy division/comparison semantics.  Exact float64
  rounding is not modelled; the claims under study only observe comparisons,
  clamps and defaults, never rounded float values.
* The fitted scikit-learn `StandardScaler`/`RandomForestRegressor` pair is
  modelled by its observable interface: the scaler records the fitted input
  width (`scaler_width`); the numeric value of a fitted prediction is an
  opaque function `reg` (re-trained via the opaque `trainer` field).  What is
  modelled exactly is when fitting / transforming / predicting raises:
  transform fails on a width mismatch, on non-numeric (string) columns, on an
  unfitted scaler, and on empty input; fit/predict fail on non-finite values.
* Python exceptions are modelled with `Except`: a function that the source
  wraps in try/except has a `...Core` variant returning `Except` and a total
  catching wrapper, mirroring the except-branches of the source.
-/

deriving instance DecidableEq for Except

/-- Numeric cell value of a pandas/numpy float64 column: a finite rational,
positive infinity, negative infinity, or NaN. -/
inductive PFloat where
  | fin : ℚ → PFloat
  | pinf : PFloat
  | ninf : PFloat
  | nan : PFloat
deriving DecidableEq

/-- Subtraction with IEEE/numpy semantics (NaN propagates, inf - inf = NaN). -/
def PFloat.sub : PFloat → PFloat → PFloat
  | .fin a, .fin b => .fin (a - b)
  | .fin _, .pinf => .ninf
  | .fin _, .ninf => .pinf
  | .pinf, .fin _ => .pinf
  | .ninf, .fin _ => .ninf
  | .pinf, .ninf => .pinf
  | .ninf, .pinf => .ninf
  | _, _ => .nan

/-- Multiplication with IEEE/numpy semantics (0 * inf = NaN). -/
def PFloat.mul : PFloat → PFloat → PFloat
  | .fin a, .fin b => .fin (a * b)
  | .fin a, .pinf => if a = 0 then .nan else if 0 < a then .pinf else .ninf
  | .fin a, .ninf => if a = 0 then .nan else if 0 < a then .ninf else .pinf
  | .pinf, .fin a => if a = 0 then .nan else if 0 < a then .pinf else .ninf
  | .ninf, .fin a => if a = 0 then .nan else if 0 < a then .ninf else .pinf
  | .pinf, .pinf => .pinf
  | .pinf, .ninf => .ninf
  | .ninf, .pinf => .ninf
  | .ninf, .ninf => .pinf
  | _, _ => .nan

/-- Division with numpy semantics: x/0 is signed infinity for x nonzero and
NaN for x = 0 (numpy true division of scalars warns but returns inf/NaN). -/
def PFloat.div : PFloat → PFloat → PFloat
  | .fin a, .fin b =>
      if b = 0 then (if a = 0 then .nan else if 0 < a then .pinf else .ninf)
      else .fin (a / b)
  | .fin _, .pinf => .fin 0
  | .fin _, .ninf => .fin 0
  | .pinf, .fin b => if b < 0 then .ninf else .pinf
  | .ninf, .fin b => if b < 0 then .pinf else .ninf
  | _, _ => .nan

/-- Strict less-than as it evaluates on floats: any comparison with NaN is false. -/
def PFloat.ltb : PFloat → PFloat → Bool
  | .fin a, .fin b => decide (a < b)
  | .fin _, .pinf => true
  | .ninf, .fin _ => true
  | .ninf, .pinf => true
  | _, _ => false

/-- Absolute value (abs of NaN is NaN, abs of either infinity is +inf). -/
def PFloat.absF : PFloat → PFloat
  | .fin a => .fin (if a < 0 then -a else a)
  | .nan => .nan
  | _ => .pinf

/-- Test for a finite value (scikit-learn fit/predict reject NaN and infinity). -/
def PFloat.isFinite : PFloat → Bool
  | .fin _ => true
  | _ => false

/-- Model of `Series.fillna(v)`: replaces NaN (and only NaN — infinities stay). -/
def PFloat.fillna (x : PFloat) (v : ℚ) : PFloat :=
  if x = .nan then .fin v else x

/-- Model of the Python two-argument `max(a, b)`: returns b when a < b, else a
(so `max(NaN, x) = NaN`, matching CPython). -/
def pyMaxF (a b : PFloat) : PFloat :=
  if PFloat.ltb a b then b else a

/-- A telemetry record, i.e. one row of a DataFrame built from a Python dict.
A field is `none` when the dict lacks the key.  The field order mirrors the
column order in which the source constructs these dicts (prepare_features in
suggestions_service.py, then the transaction-event keys). -/
structure Event where
  channel_id : Option String := none
  timestamp : Option Nat := none
  capacity : Option ℚ := none
  local_balance : Option ℚ := none
  remote_balance : Option ℚ := none
  remote_pubkey : Option String := none
  balance_ratio : Option ℚ := none
  sender : Option String := none
  receiver : Option String := none
  amount : Option ℚ := none
  fee : Option ℚ := none
  success : Option Bool := none
  data_type : Option String := none
deriving DecidableEq

/-- Numeric column cell from an optional rational field (missing value = NaN). -/
def optF : Option ℚ → PFloat
  | some v => .fin v
  | none => .nan

/-- Numeric column cell from an optional bool field (True = 1.0, False = 0.0). -/
def optB : Option Bool → PFloat
  | some b => .fin (if b then 1 else 0)
  | none => .nan

namespace FeatureProcessor

/-- REQUIRED_COLUMNS of FeatureProcessor (features.py lines 9-12). -/
def REQUIRED_COLUMNS : List String :=
  ["timestamp", "channel_id", "capacity", "local_balance", "remote_balance", "balance_ratio"]

/-- Column-presence test: a column of a DataFrame built from dicts exists iff
some row carries the field. -/
def colPresent (data : List Event) (c : String) : Bool :=
  if c = "timestamp" then data.any (fun r => r.timestamp.isSome)
  else if c = "channel_id" then data.any (fun r => r.channel_id.isSome)
  else if c = "capacity" then data.any (fun r => r.capacity.isSome)
  else if c = "local_balance" then data.any (fun r => r.local_balance.isSome)
  else if c = "remote_balance" then data.any (fun r => r.remote_balance.isSome)
  else if c = "balance_ratio" then data.any (fun r => r.balance_ratio.isSome)
  else false

/-- Required columns absent from the batch, in REQUIRED_COLUMNS order
(features.py line 23). -/
def missing_cols (data : List Event) : List String :=
  REQUIRED_COLUMNS.filter (fun c => !(colPresent data c))

/-- Error taxonomy of the feature path.  The source raises plain ValueError
(features.py lines 21 and 25); the spec names this failure ValidationError. -/
inductive FPError where
  | validationError : String → FPError
deriving DecidableEq

/-- validate_input (features.py lines 18-25): raises on an empty DataFrame,
then on missing required columns. -/
def validate_input (data : List Event) : Except FPError Unit :=
  if data.isEmpty then
    .error (.validationError "Input DataFrame is empty")
  else
    let missing := missing_cols data
    if missing.isEmpty then .ok ()
    else .error (.validationError ("Missing required columns: " ++ String.intercalate ", " missing))

end FeatureProcessor

/-- Stable insertion keeping earlier equal-key elements first: x is placed
after every y with le y x. -/
def stableInsert (le : α → α → Bool) (x : α) : List α → List α
  | [] => [x]
  | y :: ys => if le y x then y :: stableInsert le x ys else x :: y :: ys

/-- Stable ascending sort by the comparator le (model of DataFrame.sort_values;
the concrete inputs used below have distinct keys, so the kind of sort used by
pandas does not matter). -/
def stableSort (le : α → α → Bool) (l : List α) : List α :=
  l.foldl (fun acc x => stableInsert le x acc) []

/-- Ascending order on the timestamp column with missing stamps (NaT) last. -/
def tsLe : Option Nat → Option Nat → Bool
  | some a, some b => decide (a ≤ b)
  | some _, none => true
  | none, some _ => false
  | none, none => true

/-- Difference of two timestamp cells in hours
(`.diff().dt.total_seconds() / 3600`, features.py line 43); NaT gives NaN. -/
def tsDiffHours : Option Nat → Option Nat → PFloat
  | some t, some p => .fin ((((t : Int) - (p : Int)) : ℚ) / 3600)
  | _, _ => .nan

namespace FeatureProcessor

/-- Per-row result of the two grouped forward differences of
calculate_balance_velocity (features.py lines 40-43): balance_change and
time_diff of each row against the previous row of the same channel_id group,
NaN for the first row of a group and for rows whose channel_id is missing
(pandas groupby drops NaN keys). -/
def groupDiffs : List Event → List (String × Event) → List (PFloat × PFloat)
  | [], _ => []
  | e :: rest, seen =>
    match e.channel_id with
    | none => (.nan, .nan) :: groupDiffs rest seen
    | some c =>
      let prev := ((seen.find? (fun p => p.1 == c)).map (fun p => p.2))
      let bc := match prev with
        | none => PFloat.nan
        | some p => PFloat.sub (optF e.local_balance) (optF p.local_balance)
      let td := match prev with
        | none => PFloat.nan
        | some p => tsDiffHours e.timestamp p.timestamp
      (bc, td) :: groupDiffs rest ((c, e) :: seen)

end FeatureProcessor

/-- One row of the feature table produced by FeatureProcessor.process_features:
exactly the columns channel_id, timestamp, balance_velocity, liquidity_stress,
hour_of_day, day_of_week, balance_ratio, in this order (features.py lines
93-103).  Note the table has no capacity column. -/
structure FeatRow where
  channel_id : Option String
  timestamp : Option Nat
  balance_velocity : PFloat
  liquidity_stress : PFloat
  hour_of_day : PFloat
  day_of_week : PFloat
  balance_ratio : PFloat
deriving DecidableEq

/-- Hour-of-day of a timestamp cell (`.dt.hour`, timestamps are seconds since
the epoch). -/
def hourOf : Option Nat → PFloat
  | some t => .fin (((t / 3600) % 24 : Nat) : ℚ)
  | none => .nan

/-- Day-of-week of a timestamp cell (`.dt.dayofweek`, Monday = 0; the epoch
day was a Thursday, hence the offset 3). -/
def dayOf : Option Nat → PFloat
  | some t => .fin (((t / 86400 + 3) % 7 : Nat) : ℚ)
  | none => .nan

namespace FeatureProcessor

/-- Liquidity stress of one row (features.py lines 61-66):
max(1 - local_balance/capacity, local_balance/capacity) with the Python
two-argument max. -/
def liquidity_stress_of (e : Event) : PFloat :=
  let r := PFloat.div (optF e.local_balance) (optF e.capacity)
  pyMaxF (PFloat.sub (.fin 1) r) r

/-- process_features (features.py lines 79-103): validate, sort by timestamp,
compute the grouped balance velocity (NaN of the first group row filled with
0), liquidity stress and the calendar features, and select the final columns.
The input is a well-typed telemetry batch as in the data model (timestamps are
datetimes); its failures are exactly those of validate_input. -/
def process_features (data : List Event) : Except FPError (List FeatRow) := do
  let _ ← validate_input data
  let df := stableSort (fun a b => tsLe a.timestamp b.timestamp) data
  let diffs := groupDiffs df []
  pure ((df.zip diffs).map (fun p =>
    { channel_id := p.1.channel_id
      timestamp := p.1.timestamp
      balance_velocity := (PFloat.div p.2.1 p.2.2).fillna 0
      liquidity_stress := liquidity_stress_of p.1
      hour_of_day := hourOf p.1.timestamp
      day_of_week := dayOf p.1.timestamp
      balance_ratio := optF p.1.balance_ratio }))

end FeatureProcessor

/-- CLAIM C8: process_features fails (with a ValidationError) exactly when the
batch is empty or one of the required columns is absent from the batch, and
otherwise returns a feature table. -/
theorem C8_process_features_fails_iff (data : List Event) :
    (∃ e, FeatureProcessor.process_features data = .error e) ↔
      (data = [] ∨ FeatureProcessor.missing_cols data ≠ []) := by
  unfold FeatureProcessor.process_features FeatureProcessor.validate_input
  by_cases h : data.isEmpty
  · simp only [h, if_true]
    constructor
    · intro _
      exact Or.inl (List.isEmpty_iff.mp h)
    · intro _
      exact ⟨FeatureProcessor.FPError.validationError "Input DataFrame is empty", rfl⟩
  · simp only [h, if_false]
    by_cases hm : (FeatureProcessor.missing_cols data).isEmpty
    · simp only [hm, if_true]
      constructor
      · intro ⟨e, he⟩
        simp [Bind.bind, Except.bind, pure, Except.pure] at he
      · intro hor
        rcases hor with h1 | h2
        · exact absurd (by simp [h1] : data.isEmpty = true) (by simp [h])
        · exact absurd (List.isEmpty_iff.mp hm) h2
    · simp only [hm, if_false]
      constructor
      · intro _
        exact Or.inr (fun hnil => hm (by simp [hnil]))
      · intro _
        refine ⟨FeatureProcessor.FPError.validationError ("Missing required columns: " ++
          String.intercalate ", " (FeatureProcessor.missing_cols data)), ?_⟩
        rfl

/-- Python list slice `l[-k:]` (online_learner.py line 121): the last k
elements for k ≥ 1, but the whole list for k = 0, because Python -0 is 0 and
`l[0:]` is l. -/
def pyTrimLast (k : Nat) (l : List α) : List α :=
  if k = 0 then l else l.drop (l.length - k)

/-- Buffer trim step of add_transaction (online_learner.py lines 120-121):
slice only when the length exceeds the capacity. -/
def pyTrimIf (k : Nat) (l : List α) : List α :=
  if l.length > k then pyTrimLast k l else l

/-- Last n elements of a list (the specified eviction result). -/
def lastN (n : Nat) (l : List α) : List α :=
  l.drop (l.length - n)

/-- State of OnlineLearner (online_learner.py lines 57-89).  The scaler is
modelled by the input width it was fitted on (`scaler_width = none` while the
StandardScaler is unfitted); the regressor by the opaque prediction function
`reg`; re-training by the opaque `trainer` (constant across the run, standing
for RandomForestRegressor.fit).  last_update_time and the periodic disk
snapshot are wall-clock I/O and are not modelled. -/
structure OnlineLearner where
  buffer : List Event
  buffer_size : Nat
  min_samples_for_update : Nat
  update_interval : Nat
  transaction_count : Nat
  learning_rate : ℚ
  performance_history : List ℚ
  is_fitted : Bool
  scaler_width : Option Nat
  reg : List PFloat → ℚ
  trainer : List (List PFloat) → List PFloat → List PFloat → ℚ

/-- Constructor path without an existing model file (online_learner.py lines
85-89): fresh regressor and scaler, unfitted.  The fresh regressor has no
meaningful prediction function (predicting with it would raise before
is_fitted is ever true), so its reg is an arbitrary parameter of the run. -/
def OnlineLearner.init (buffer_size min_samples_for_update update_interval : Nat)
    (trainer : List (List PFloat) → List PFloat → List PFloat → ℚ) : OnlineLearner :=
  { buffer := []
    buffer_size
    min_samples_for_update
    update_interval
    transaction_count := 0
    learning_rate := 0.1
    performance_history := []
    is_fitted := false
    scaler_width := none
    reg := fun _ => 0.5
    trainer }

/-- Feature matrix row of a processed feature table after
`drop(['channel_id', 'timestamp'])` (online_learner.py line 169): the five
numeric columns in table order. -/
def featX (r : FeatRow) : List PFloat :=
  [r.balance_velocity, r.liquidity_stress, r.hour_of_day, r.day_of_week, r.balance_ratio]

/-- Finiteness of a whole matrix (scikit-learn fit and predict raise on NaN or
infinite entries). -/
def matFinite (X : List (List PFloat)) : Bool :=
  X.all (fun r => r.all PFloat.isFinite)

/-- The _update_model step (online_learner.py lines 147-203).  Returns the new
state and the bool the method returns.  The try/except of the source catches
every exception and returns False; the modelled exception sources are: the
feature-processing ValidationError, non-finite feature or target values
(RandomForest.fit raises on NaN/inf), a transform width mismatch, and an
unfitted scaler on the refit path.  The disk snapshot (time-gated I/O) is not
modelled. -/
def OnlineLearner.update_model (st : OnlineLearner) : OnlineLearner × Bool :=
  if st.buffer.isEmpty then (st, false)
  else
    match FeatureProcessor.process_features st.buffer with
    | .error _ => (st, false)
    | .ok feats =>
      if feats.isEmpty then (st, false)
      else
        let X := feats.map featX
        let y := feats.map (fun r => r.balance_ratio)
        if X.length < st.min_samples_for_update then (st, false)
        else if st.is_fitted = false then
          if matFinite X && y.all PFloat.isFinite then
            ({ st with scaler_width := some 5, reg := st.trainer X y, is_fitted := true }, true)
          else (st, false)
        else
          match st.scaler_width with
          | none => (st, false)
          | some w =>
            if X.all (fun r => r.length == w) && matFinite X && y.all PFloat.isFinite then
              ({ st with reg := st.trainer X y }, true)
            else (st, false)

/-- add_transaction (online_learner.py lines 105-131): append, bump the count,
trim, then update the model iff the buffer has reached min_samples_for_update
and the count is divisible by update_interval.  Caveat: Python `%` raises
ZeroDivisionError for update_interval = 0 while Nat.mod is total; every
configuration in the repository uses update_interval = 10. -/
def OnlineLearner.add_transaction (st : OnlineLearner) (transaction_data : Event) :
    OnlineLearner × Bool :=
  let buffer := pyTrimIf st.buffer_size (st.buffer ++ [transaction_data])
  let transaction_count := st.transaction_count + 1
  let st := { st with buffer, transaction_count }
  if st.min_samples_for_update ≤ buffer.length ∧ transaction_count % st.update_interval = 0 then
    st.update_model
  else (st, false)

/-- add_channel_state (online_learner.py lines 133-145).  Python mutates the
caller's dict in place (`channel_data['_data_type'] = 'channel_state'`); the
third component of the result is the content of the caller's record after the
call. -/
def OnlineLearner.add_channel_state (st : OnlineLearner) (channel_data : Event) :
    OnlineLearner × Bool × Event :=
  let channel_data := { channel_data with data_type := some "channel_state" }
  let r := st.add_transaction channel_data
  (r.1, r.2, channel_data)

/-- A features_df argument of predict: either a raw DataFrame of telemetry
rows (the fallback that prepare_features returns when feature processing
raises) or a processed feature table. -/
inductive FTable where
  | raw : List Event → FTable
  | feat : List FeatRow → FTable
deriving DecidableEq

/-- Number of rows (`len(features_df)`). -/
def FTable.numRows : FTable → Nat
  | .raw l => l.length
  | .feat l => l.length

/-- Column-presence flags of a raw DataFrame after dropping channel_id and
timestamp, in Event field order. -/
structure RawCols where
  hasCapacity : Bool
  hasLocal : Bool
  hasRemote : Bool
  hasPubkey : Bool
  hasRatio : Bool
  hasSender : Bool
  hasReceiver : Bool
  hasAmount : Bool
  hasFee : Bool
  hasSuccess : Bool
  hasDataType : Bool
deriving DecidableEq

/-- Columns present in a raw DataFrame (a column exists iff some row has the
field). -/
def rawColsOf (rows : List Event) : RawCols :=
  { hasCapacity := rows.any (fun r => r.capacity.isSome)
    hasLocal := rows.any (fun r => r.local_balance.isSome)
    hasRemote := rows.any (fun r => r.remote_balance.isSome)
    hasPubkey := rows.any (fun r => r.remote_pubkey.isSome)
    hasRatio := rows.any (fun r => r.balance_ratio.isSome)
    hasSender := rows.any (fun r => r.sender.isSome)
    hasReceiver := rows.any (fun r => r.receiver.isSome)
    hasAmount := rows.any (fun r => r.amount.isSome)
    hasFee := rows.any (fun r => r.fee.isSome)
    hasSuccess := rows.any (fun r => r.success.isSome)
    hasDataType := rows.any (fun r => r.data_type.isSome) }

/-- Whether the raw X frame carries a string-typed column (then scikit-learn
transform raises converting the object dtype to float). -/
def RawCols.hasStrCol (c : RawCols) : Bool :=
  c.hasPubkey || c.hasSender || c.hasReceiver || c.hasDataType

/-- One matrix row of the raw X frame: the numeric cells of the present
columns, in column order.  Only consulted when no string column is present. -/
def rawRowX (c : RawCols) (e : Event) : List PFloat :=
  (if c.hasCapacity then [optF e.capacity] else []) ++
  (if c.hasLocal then [optF e.local_balance] else []) ++
  (if c.hasRemote then [optF e.remote_balance] else []) ++
  (if c.hasRatio then [optF e.balance_ratio] else []) ++
  (if c.hasAmount then [optF e.amount] else []) ++
  (if c.hasFee then [optF e.fee] else []) ++
  (if c.hasSuccess then [optB e.success] else [])

/-- Number of numeric X columns of a raw DataFrame. -/
def RawCols.numWidth (c : RawCols) : Nat :=
  (if c.hasCapacity then 1 else 0) + (if c.hasLocal then 1 else 0) +
  (if c.hasRemote then 1 else 0) + (if c.hasRatio then 1 else 0) +
  (if c.hasAmount then 1 else 0) + (if c.hasFee then 1 else 0) +
  (if c.hasSuccess then 1 else 0)

/-- Column count of the X frame of a raw table (its width as seen by the
fitted scaler). -/
def rawXWidth (rows : List Event) : Nat :=
  (rawColsOf rows).numWidth

/-- Scaling-then-predicting on an X matrix, as an Except mirroring what the
scikit-learn calls raise (online_learner.py lines 240-243): empty input,
unfitted scaler, width mismatch against the fitted width, and non-finite
values all raise; otherwise the opaque regressor produces one value per row. -/
def OnlineLearner.scaleAndPredict (st : OnlineLearner) (X : List (List PFloat)) :
    Except String (List ℚ) :=
  if X.isEmpty then .error "ValueError: found array with 0 samples"
  else
    match st.scaler_width with
    | none => .error "NotFittedError: this StandardScaler instance is not fitted yet"
    | some w =>
      if X.all (fun r => r.length == w) then
        if matFinite X then .ok (X.map st.reg)
        else .error "ValueError: input contains NaN or infinity"
      else .error "ValueError: X feature width does not match scaler"

/-- Body of the try block of predict (online_learner.py lines 235-245): drop
channel_id and timestamp, scale, predict. -/
def OnlineLearner.predictCore (st : OnlineLearner) : FTable → Except String (List ℚ)
  | .feat rows => st.scaleAndPredict (rows.map featX)
  | .raw rows =>
      if (rawColsOf rows).hasStrCol then
        .error "ValueError: could not convert string to float"
      else st.scaleAndPredict (rows.map (rawRowX (rawColsOf rows)))

/-- predict (online_learner.py lines 221-249): the constant-0.5 vector while
unfitted; otherwise the try-block result, with every exception caught and
replaced by the constant-0.5 vector of the input length. -/
def OnlineLearner.predict (st : OnlineLearner) (features_df : FTable) : List ℚ :=
  if st.is_fitted = false then List.replicate features_df.numRows 0.5
  else
    match st.predictCore features_df with
    | .ok predictions => predictions
    | .error _ => List.replicate features_df.numRows 0.5

/-- The learning-rate adjustment step of retrain (online_learner.py lines
309-324): given the current performance score, when at least two samples are
already in the history, compare with the last one and multiply the rate by
1.1 capped at 0.5 (improving) or by 0.9 floored at 0.01 (declining); then
append the score to the history. -/
def OnlineLearner.adjustLearningRate (learning_rate : ℚ) (history : List ℚ)
    (current_performance : ℚ) : ℚ × List ℚ :=
  let lr :=
    if 1 < history.length then
      if history.getLastD 0 < current_performance then min 0.5 (learning_rate * 1.1)
      else max 0.01 (learning_rate * 0.9)
    else learning_rate
  (lr, history ++ [current_performance])

/-- A run of retrain adjustments from the initial learning rate 0.1
(online_learner.py line 78) over a sequence of performance scores. -/
def adjustRun (perfs : List ℚ) : ℚ × List ℚ :=
  perfs.foldl (fun s c => OnlineLearner.adjustLearningRate s.1 s.2 c) (0.1, [])

/-- Split of a character list at a separator, keeping empty segments. -/
def splitChar (c : Char) : List Char → List Char → List (List Char)
  | [], acc => [acc.reverse]
  | x :: xs, acc =>
      if x = c then acc.reverse :: splitChar c xs []
      else splitChar c xs (x :: acc)

/-- Model of the Python single-character `s.split(sep)` (suggestions_service.py
line 220). -/
def pySplit (s : String) (sep : Char) : List String :=
  (splitChar sep s.data []).map (fun cs => String.mk cs)

/-- Truncation of a float toward zero, int() in Python. -/
def pyIntOf : PFloat → Except String Int
  | .fin v => .ok (v.num.tdiv v.den)
  | .nan => .error "ValueError: cannot convert float NaN to integer"
  | _ => .error "OverflowError: cannot convert float infinity to integer"

/-- Floor of a rational as an integer. -/
def qfloor (x : ℚ) : Int :=
  x.num.fdiv x.den

/-- Round-half-even of a rational, the rounding of Python float formatting. -/
def roundHalfEven (x : ℚ) : Int :=
  let f := qfloor x
  let r := x - (f : ℚ)
  if r < 1/2 then f
  else if 1/2 < r then f + 1
  else if f % 2 = 0 then f else f + 1

/-- One-decimal rendering of a nonnegative rational, the `:.1f` format used in
the suggestion reason strings (float64 representation error, invisible at one
decimal for these values, is not modelled). -/
def fmt1 (x : ℚ) : String :=
  let n := roundHalfEven (x * 10)
  toString (n.tdiv 10) ++ "." ++ toString (n.tmod 10).natAbs

/-- Percentage text `abs(adjustment)*100:.1f` of the reason strings
(suggestions_service.py lines 251 and 258). -/
def pctStr (adjustment : PFloat) : String :=
  match PFloat.mul (PFloat.absF adjustment) (.fin 100) with
  | .fin v => fmt1 v
  | .nan => "nan"
  | _ => "inf"

/-- A rebalancing suggestion dict (suggestions_service.py lines 247-259). -/
structure Suggestion where
  from_node : String
  to_node : String
  amount : Int
  reason : String
deriving DecidableEq

/-- One channel record of the `/api/channels` payload, already well-typed (the
source applies int() to the dict fields, suggestions_service.py lines
274-277). -/
structure ChannelInfo where
  capacity : Int
  local_balance : Int
  remote_balance : Int
  remote_pubkey : String
deriving DecidableEq

/-- The min/max clamp applied to a suggestion amount (suggestions_service.py
lines 240-243). -/
def clampAmount (amount : Int) : Int :=
  max 10000 (min 1000000 amount)

/-- A cell of a dynamically-typed DataFrame row, as the suggestion loop reads
it back via `row['col']`. -/
inductive Cell where
  | str : String → Cell
  | num : PFloat → Cell
  | tsv : Nat → Cell
deriving DecidableEq

/-- A row handed to the suggestion loop: either a raw telemetry row (fallback
table) or a processed feature row. -/
inductive DRow where
  | raw : Event → DRow
  | feat : FeatRow → DRow
deriving DecidableEq

/-- Column lookup on a raw row.  The tables this is applied to are built with
uniform keys per row (prepare_features), so per-row field presence coincides
with column presence. -/
def Event.getCol (e : Event) (k : String) : Option Cell :=
  if k = "channel_id" then e.channel_id.map .str
  else if k = "timestamp" then e.timestamp.map .tsv
  else if k = "capacity" then e.capacity.map (fun v => .num (.fin v))
  else if k = "local_balance" then e.local_balance.map (fun v => .num (.fin v))
  else if k = "remote_balance" then e.remote_balance.map (fun v => .num (.fin v))
  else if k = "remote_pubkey" then e.remote_pubkey.map .str
  else if k = "balance_ratio" then e.balance_ratio.map (fun v => .num (.fin v))
  else if k = "sender" then e.sender.map .str
  else if k = "receiver" then e.receiver.map .str
  else if k = "amount" then e.amount.map (fun v => .num (.fin v))
  else if k = "fee" then e.fee.map (fun v => .num (.fin v))
  else if k = "success" then e.success.map (fun b => .num (optB (some b)))
  else if k = "data_type" then e.data_type.map .str
  else none

/-- Column lookup on a processed feature row: exactly the seven feature-table
columns exist; in particular there is no capacity column. -/
def FeatRow.getCol (r : FeatRow) (k : String) : Option Cell :=
  if k = "channel_id" then some (match r.channel_id with | some s => .str s | none => .num .nan)
  else if k = "timestamp" then some (match r.timestamp with | some t => .tsv t | none => .num .nan)
  else if k = "balance_velocity" then some (.num r.balance_velocity)
  else if k = "liquidity_stress" then some (.num r.liquidity_stress)
  else if k = "hour_of_day" then some (.num r.hour_of_day)
  else if k = "day_of_week" then some (.num r.day_of_week)
  else if k = "balance_ratio" then some (.num r.balance_ratio)
  else none

/-- Column lookup on either row kind. -/
def DRow.getCol : DRow → String → Option Cell
  | .raw e, k => e.getCol k
  | .feat r, k => r.getCol k

/-- Numeric read of `row[k]`: a missing column raises KeyError, a non-numeric
cell makes the subsequent arithmetic raise TypeError. -/
def DRow.getNum (r : DRow) (k : String) : Except String PFloat :=
  match r.getCol k with
  | none => .error ("KeyError: " ++ k)
  | some (.num p) => .ok p
  | some _ => .error ("TypeError: unsupported operand on column " ++ k)

/-- String read of `row[k]`: a missing column raises KeyError, a non-string
cell makes `.split` raise AttributeError. -/
def DRow.getStr (r : DRow) (k : String) : Except String String :=
  match r.getCol k with
  | none => .error ("KeyError: " ++ k)
  | some (.str s) => .ok s
  | some _ => .error ("AttributeError: split is not defined on this column " ++ k)

/-- Rows of a features table as the loop iterates them. -/
def FTable.rows : FTable → List DRow
  | .raw l => l.map .raw
  | .feat l => l.map .feat

namespace SuggestionsService

/-- One row dict built from a channel record (suggestions_service.py lines
286-295).  balance_ratio is local/capacity for positive capacity, 0.5
otherwise; the shared timestamp is the datetime.now() of the call, passed in
as `now`. -/
def rowOfChannel (now : Nat) (node : String) (ch : ChannelInfo) : Event :=
  { channel_id := some (node ++ "_" ++ ch.remote_pubkey.take 8)
    timestamp := some now
    capacity := some (ch.capacity : ℚ)
    local_balance := some (ch.local_balance : ℚ)
    remote_balance := some (ch.remote_balance : ℚ)
    remote_pubkey := some ch.remote_pubkey
    balance_ratio := some (if 0 < ch.capacity then (ch.local_balance : ℚ) / (ch.capacity : ℚ) else 0.5) }

/-- prepare_features (suggestions_service.py lines 265-312): build one row per
channel with nonzero capacity, return None when no rows, the processed feature
table on success, and the original DataFrame when feature processing raises. -/
def prepare_features (now : Nat) (channels : List (String × List ChannelInfo)) :
    Option FTable :=
  let rows := channels.flatMap (fun p =>
    (p.2.filter (fun ch => ch.capacity != 0)).map (rowOfChannel now p.1))
  if rows.isEmpty then none
  else
    match FeatureProcessor.process_features rows with
    | .ok f => some (.feat f)
    | .error _ => some (.raw rows)

/-- The adjustment_needed column (suggestions_service.py line 205): predicted
optimal ratio minus the balance_ratio column, per row. -/
def computeAdjustments : List DRow → List ℚ → Except String (List (DRow × PFloat))
  | [], _ => .ok []
  | r :: rs, p :: ps => do
      let br ← r.getNum "balance_ratio"
      let rest ← computeAdjustments rs ps
      .ok ((r, PFloat.sub (.fin p) br) :: rest)
  | _ :: _, [] => .error "ValueError: length of values does not match length of index"

/-- The suggestion-building loop (suggestions_service.py lines 215-261): for
each candidate row, parse channel_id as node_remotepubkey (skipping rows
without an underscore), resolve the counterpart as the first other node key
(skipping when there is none), then read row['capacity'] — the column the
processed feature table does not have — clamp the amount and emit the
direction-dependent suggestion dict. -/
def buildSuggestions (channels : List (String × List ChannelInfo)) :
    List (DRow × PFloat) → Except String (List Suggestion)
  | [] => .ok []
  | (row, adjustment) :: rest => do
      let channel_id ← row.getStr "channel_id"
      let parts := pySplit channel_id '_'
      if parts.length < 2 then buildSuggestions channels rest
      else
        let from_node := parts.headD ""
        match (channels.map Prod.fst).find? (fun node => node != from_node) with
        | none => buildSuggestions channels rest
        | some to_node => do
            let capacity ← row.getNum "capacity"
            let amount0 ← pyIntOf (PFloat.mul (PFloat.absF adjustment) capacity)
            let amount := clampAmount amount0
            let s :=
              if PFloat.ltb adjustment (.fin 0) then
                { from_node := from_node, to_node := to_node, amount := amount,
                  reason := "Channel is " ++ pctStr adjustment ++ "% too full on local side" }
              else
                { from_node := to_node, to_node := from_node, amount := amount,
                  reason := "Channel is " ++ pctStr adjustment ++ "% too empty on local side" }
            let tail ← buildSuggestions channels rest
            .ok (s :: tail)

/-- generate_suggestions (suggestions_service.py lines 176-263).  The learner
state and the wall clock are passed explicitly.  The result is an Except: the
ok value is the returned list, an error is an exception escaping the method
(only the prediction step is guarded by try/except in the source; the
suggestion loop is not). -/
def generate_suggestions (st : OnlineLearner) (now : Nat)
    (channels : List (String × List ChannelInfo)) : Except String (List Suggestion) :=
  if channels.isEmpty then .ok []
  else
    match prepare_features now channels with
    | none => .ok []
    | some features_df =>
      if features_df.numRows = 0 then .ok []
      else
        let predictions : List ℚ :=
          if st.is_fitted then st.predict features_df
          else List.replicate features_df.numRows 0.5
        match computeAdjustments features_df.rows predictions with
        | .error e => .error e
        | .ok withAdj =>
          let rebalance_candidates :=
            withAdj.filter (fun rc => PFloat.ltb (.fin 0.1) (PFloat.absF rc.2))
          let sorted := stableSort
            (fun a b => PFloat.ltb (PFloat.absF b.2) (PFloat.absF a.2) || (PFloat.absF a.2 == PFloat.absF b.2))
            rebalance_candidates
          buildSuggestions channels (sorted.take 3)

end SuggestionsService


/-- A trivial stand-in for RandomForestRegressor.fit: the trained prediction
function is opaque to every claim, so concrete runs may use any trainer. -/
def zeroTrainer : List (List PFloat) → List PFloat → List PFloat → ℚ :=
  fun _ _ _ => 0.5

/-- The learner as configured by the suggestions service
(suggestions_service.py lines 123-128): buffer 1000, min samples 20, update
interval 10, no model file on disk. -/
def learner0 : OnlineLearner :=
  OnlineLearner.init 1000 20 10 zeroTrainer

/-- A well-formed channel-state telemetry event of one channel, with distinct
hourly timestamps: every required feature column is present and finite. -/
def csEvent (i : Nat) : Event :=
  { channel_id := some "nodeA_deadbeef"
    timestamp := some (3600 * i)
    capacity := some 100
    local_balance := some 50
    remote_balance := some 50
    balance_ratio := some 0.5 }

/-- Thirty valid channel-state submissions. -/
def scenario30 : List Event :=
  (List.range 30).map csEvent

/-- A transaction-shaped telemetry event per the data model (sender, receiver,
amount, success, fee, timestamp); it carries none of the channel fields the
feature extractor requires. -/
def txEvent (i : Nat) : Event :=
  { timestamp := some (60 * i)
    sender := some "lnd-a"
    receiver := some "lnd-b"
    amount := some 10
    fee := some 1
    success := some true }

/-- Twenty transaction submissions. -/
def txBatch : List Event :=
  (List.range 20).map txEvent

/-- Final learner state after a sequence of add_transaction calls. -/
def runAdds (st : OnlineLearner) (evs : List Event) : OnlineLearner :=
  evs.foldl (fun s e => (s.add_transaction e).1) st

/-- The bool returned by each add_transaction call of a sequence, in order. -/
def runResults (st : OnlineLearner) (evs : List Event) : List Bool :=
  (evs.foldl (fun acc e =>
    let r := acc.1.add_transaction e
    (r.1, acc.2 ++ [r.2])) (st, ([] : List Bool))).2

/-- update_model never touches the buffer or its capacity (it only refits the
model and scaler). -/
theorem update_model_preserves (st : OnlineLearner) :
    (st.update_model).1.buffer = st.buffer ∧
    (st.update_model).1.buffer_size = st.buffer_size := by
  unfold OnlineLearner.update_model
  dsimp only
  repeat' split
  all_goals exact ⟨rfl, rfl⟩

/-- The buffer after one add_transaction call is the appended buffer put
through the Python trim, and the capacity is unchanged. -/
theorem add_transaction_state (st : OnlineLearner) (e : Event) :
    (st.add_transaction e).1.buffer = pyTrimIf st.buffer_size (st.buffer ++ [e]) ∧
    (st.add_transaction e).1.buffer_size = st.buffer_size := by
  simp only [OnlineLearner.add_transaction]
  split
  · exact ⟨(update_model_preserves _).1, (update_model_preserves _).2⟩
  · exact ⟨rfl, rfl⟩

/-- The suffix kept by lastN is never longer than n. -/
theorem lastN_length_le (n : Nat) (l : List α) : (lastN n l).length ≤ n := by
  simp only [lastN, List.length_drop]
  omega

/-- Taking a lastN suffix before appending does not change the final lastN
suffix. -/
theorem lastN_append_absorb (n : Nat) (l m : List α) :
    lastN n (lastN n l ++ m) = lastN n (l ++ m) := by
  unfold lastN
  have h1 : l.drop (l.length - n) ++ m = (l ++ m).drop (l.length - n) := by
    rw [List.drop_append_eq_append_drop]
    have h0 : l.length - n - l.length = 0 := by omega
    rw [h0, List.drop_zero]
  rw [h1, List.drop_drop]
  congr 1
  simp only [List.length_drop, List.length_append]
  omega

/-- For a positive capacity the Python trim is exactly the lastN suffix (for
capacity 0 the two differ: the Python slice l[-0:] keeps the whole list). -/
theorem pyTrimIf_eq_lastN (b : Nat) (hb : 1 ≤ b) (l : List α) :
    pyTrimIf b l = lastN b l := by
  unfold pyTrimIf pyTrimLast lastN
  split
  · rw [if_neg (by omega)]
  · have h0 : l.length - b = 0 := by omega
    rw [h0, List.drop_zero]

/-- Invariant run of the buffer under add_transaction for a positive capacity:
the final buffer is the lastN suffix of everything ever appended. -/
theorem runAdds_buffer (evs : List Event) : ∀ (st : OnlineLearner),
    1 ≤ st.buffer_size → st.buffer.length ≤ st.buffer_size →
    (runAdds st evs).buffer = lastN st.buffer_size (st.buffer ++ evs) ∧
    (runAdds st evs).buffer_size = st.buffer_size := by
  induction evs with
  | nil =>
    intro st _ h2
    refine ⟨?_, rfl⟩
    have h0 : st.buffer.length - st.buffer_size = 0 := by omega
    simp [runAdds, lastN, h0]
  | cons e rest ih =>
    intro st h1 h2
    have hadd := add_transaction_state st e
    have hlen : (st.add_transaction e).1.buffer.length ≤ (st.add_transaction e).1.buffer_size := by
      rw [hadd.1, hadd.2, pyTrimIf_eq_lastN _ h1]
      exact lastN_length_le _ _
    have hrec := ih (st.add_transaction e).1 (by rw [hadd.2]; exact h1) hlen
    have hstep : runAdds st (e :: rest) = runAdds (st.add_transaction e).1 rest := rfl
    constructor
    · rw [hstep, hrec.1, hadd.2, hadd.1, pyTrimIf_eq_lastN _ h1, lastN_append_absorb]
      simp [List.append_assoc]
    · rw [hstep, hrec.2, hadd.2]

/-- CLAIM C2 (counterexample): with a configured buffer_size of 0 the buffer
exceeds its capacity after a single add, because the Python trim slice
`buffer[-0:]` keeps the whole list (-0 is 0 and l[0:] is l), so the claimed
capacity invariant fails for that configuration. -/
theorem C2_counterexample :
    ¬ ((runAdds (OnlineLearner.init 0 20 10 zeroTrainer) [txEvent 0]).buffer.length ≤
        (OnlineLearner.init 0 20 10 zeroTrainer).buffer_size) := by
  with_unfolding_all decide

/-- CLAIM C2 (amended): for every positive configured buffer_size b, after any
sequence of add operations from a fresh learner the buffer is exactly the last
b events in original relative order (strictly oldest-first eviction), and in
particular never holds more than b events. -/
theorem C2_amended (b m u : Nat)
    (tr : List (List PFloat) → List PFloat → List PFloat → ℚ)
    (evs : List Event) (hb : 1 ≤ b) :
    (runAdds (OnlineLearner.init b m u tr) evs).buffer = lastN b evs ∧
    (runAdds (OnlineLearner.init b m u tr) evs).buffer.length ≤ b := by
  have h := runAdds_buffer evs (OnlineLearner.init b m u tr) hb (by simp [OnlineLearner.init])
  have hbuf : (runAdds (OnlineLearner.init b m u tr) evs).buffer = lastN b evs := by
    rw [h.1]
    rfl
  exact ⟨hbuf, by rw [hbuf]; exact lastN_length_le b evs⟩

/-- CLAIM C2 (witness): with capacity 2 and three inserted events the buffer
is exactly the last two, in order. -/
theorem C2_amended_witness :
    1 ≤ 2 ∧ (runAdds (OnlineLearner.init 2 5 5 zeroTrainer)
      [txEvent 0, txEvent 1, txEvent 2]).buffer = [txEvent 1, txEvent 2] := by
  refine ⟨by decide, ?_⟩
  rw [(C2_amended 2 5 5 zeroTrainer [txEvent 0, txEvent 1, txEvent 2] (by decide)).1]
  with_unfolding_all rfl

/-- CLAIM C1 (counterexample): twenty transaction telemetry events (sender,
receiver, amount, success, fee, timestamp — the data model's Transaction
variant) leave the 20th submission with a full trigger condition (buffer size
20 ≥ min_samples 20, count 20 divisible by 10), yet add_transaction returns
false, because the model update fails on the missing channel feature columns;
so "returns true iff size ≥ min_samples and count divisible by interval" is
false on the code. -/
theorem C1_counterexample :
    learner0.min_samples_for_update ≤ (runAdds learner0 txBatch).buffer.length ∧
    (runAdds learner0 txBatch).transaction_count % learner0.update_interval = 0 ∧
    (runResults learner0 txBatch).getLastD true = false := by
  refine ⟨?_, ?_, ?_⟩ <;> with_unfolding_all decide

/-- CLAIM C1 (amended): add_transaction returns true iff, after the append,
the buffer size is at least min_samples_for_update, the monotonically
increasing count is divisible by update_interval, AND the model update over
the buffered events succeeds (feature extraction finds the required columns
and enough finite samples); in particular with min_samples 20 and interval 10,
submitting 30 valid channel-state events yields true exactly at the 20th and
30th submissions. -/
theorem C1_amended :
    (∀ (st : OnlineLearner) (e : Event),
        (st.add_transaction e).2 = true ↔
          (st.min_samples_for_update ≤ (pyTrimIf st.buffer_size (st.buffer ++ [e])).length ∧
           (st.transaction_count + 1) % st.update_interval = 0 ∧
           (OnlineLearner.update_model
             { st with buffer := pyTrimIf st.buffer_size (st.buffer ++ [e]),
                       transaction_count := st.transaction_count + 1 }).2 = true)) ∧
    runResults learner0 scenario30 =
      List.replicate 19 false ++ [true] ++ List.replicate 9 false ++ [true] := by
  constructor
  · intro st e
    simp only [OnlineLearner.add_transaction]
    split
    · rename_i h
      exact ⟨fun hu => ⟨h.1, h.2, hu⟩, fun hu => hu.2.2⟩
    · rename_i h
      constructor
      · intro hfalse
        simp at hfalse
      · intro hu
        exact absurd ⟨hu.1, hu.2.1⟩ h
  · with_unfolding_all rfl

/-- CLAIM C4: while the model is unfitted, predict returns the constant-0.5
vector of the input row count, for every input feature table. -/
theorem C4_predict_unfitted (st : OnlineLearner) (t : FTable)
    (h : st.is_fitted = false) :
    st.predict t = List.replicate t.numRows 0.5 := by
  unfold OnlineLearner.predict
  rw [h]
  simp

/-- CLAIM C4 (witness): a fresh learner is unfitted and its single-row
prediction is exactly 0.5. -/
theorem C4_witness :
    learner0.is_fitted = false ∧
    learner0.predict (FTable.raw [txEvent 0]) = [0.5] :=
  ⟨rfl, C4_predict_unfitted learner0 (FTable.raw [txEvent 0]) rfl⟩

/-- CLAIM C6: the retrain learning-rate step is exactly the 1.1-capped /
0.9-floored multiplicative update (when the history already has two scores;
otherwise the rate is untouched), and consequently, starting from the initial
rate 0.1, the learning rate stays in the closed interval from 0.01 to 0.5
after any number of adjustment calls. -/
theorem C6_learning_rate :
    (∀ (lr : ℚ) (hist : List ℚ) (c : ℚ),
        (OnlineLearner.adjustLearningRate lr hist c).1 =
          (if 1 < hist.length then
            (if hist.getLastD 0 < c then min 0.5 (lr * 1.1) else max 0.01 (lr * 0.9))
          else lr)) ∧
    (∀ perfs : List ℚ, 0.01 ≤ (adjustRun perfs).1 ∧ (adjustRun perfs).1 ≤ 0.5) := by
  constructor
  · intro lr hist c
    rfl
  · have step : ∀ (lr : ℚ) (hist : List ℚ) (c : ℚ), 0.01 ≤ lr → lr ≤ 0.5 →
        0.01 ≤ (OnlineLearner.adjustLearningRate lr hist c).1 ∧
        (OnlineLearner.adjustLearningRate lr hist c).1 ≤ 0.5 := by
      intro lr hist c h1 h2
      unfold OnlineLearner.adjustLearningRate
      dsimp only
      split
      · split
        · refine ⟨le_min (by norm_num) (by nlinarith), min_le_left _ _⟩
        · refine ⟨le_max_left _ _, max_le (by norm_num) (by nlinarith)⟩
      · exact ⟨h1, h2⟩
    have inv : ∀ (perfs : List ℚ) (s : ℚ × List ℚ), 0.01 ≤ s.1 → s.1 ≤ 0.5 →
        0.01 ≤ (perfs.foldl (fun s c => OnlineLearner.adjustLearningRate s.1 s.2 c) s).1 ∧
        (perfs.foldl (fun s c => OnlineLearner.adjustLearningRate s.1 s.2 c) s).1 ≤ 0.5 := by
      intro perfs
      induction perfs with
      | nil => intro s h1 h2; exact ⟨h1, h2⟩
      | cons c rest ih =>
        intro s h1 h2
        have hs := step s.1 s.2 c h1 h2
        exact ih (OnlineLearner.adjustLearningRate s.1 s.2 c) hs.1 hs.2
    intro perfs
    exact inv perfs (0.1, []) (by norm_num) (by norm_num)

/-- CLAIM C9 (counterexample): a channel-state record without a _data_type
marker is changed by add_channel_state — the call writes the field in place on
the caller's dict, so the record is not left unchanged. -/
theorem C9_counterexample :
    ((learner0.add_channel_state
      { channel_id := some "nodeA_deadbeef", timestamp := some 7200,
        capacity := some 100, local_balance := some 40,
        remote_balance := some 60, balance_ratio := some 0.4 }).2.2) ≠
      { channel_id := some "nodeA_deadbeef", timestamp := some 7200,
        capacity := some 100, local_balance := some 40,
        remote_balance := some 60, balance_ratio := some 0.4 } := by
  intro h
  have hd : (some "channel_state" : Option String) = none := congrArg Event.data_type h
  exact Option.noConfusion hd

/-- CLAIM C9 (amended): submitting a channel-state event via add_channel_state
leaves every pre-existing field of the caller's record unchanged; the one and
only mutation is the added _data_type = channel_state marker. -/
theorem C9_amended (st : OnlineLearner) (e : Event) :
    ((st.add_channel_state e).2.2).channel_id = e.channel_id ∧
    ((st.add_channel_state e).2.2).timestamp = e.timestamp ∧
    ((st.add_channel_state e).2.2).capacity = e.capacity ∧
    ((st.add_channel_state e).2.2).local_balance = e.local_balance ∧
    ((st.add_channel_state e).2.2).remote_balance = e.remote_balance ∧
    ((st.add_channel_state e).2.2).remote_pubkey = e.remote_pubkey ∧
    ((st.add_channel_state e).2.2).balance_ratio = e.balance_ratio ∧
    ((st.add_channel_state e).2.2).sender = e.sender ∧
    ((st.add_channel_state e).2.2).receiver = e.receiver ∧
    ((st.add_channel_state e).2.2).amount = e.amount ∧
    ((st.add_channel_state e).2.2).fee = e.fee ∧
    ((st.add_channel_state e).2.2).success = e.success ∧
    ((st.add_channel_state e).2.2).data_type = some "channel_state" :=
  ⟨rfl, rfl, rfl, rfl, rfl, rfl, rfl, rfl, rfl, rfl, rfl, rfl, rfl⟩

/-- Length of one raw matrix row: the number of present numeric X columns. -/
theorem rawRowX_length (c : RawCols) (e : Event) :
    (rawRowX c e).length = c.numWidth := by
  simp only [rawRowX, RawCols.numWidth, List.length_append, apply_ite List.length,
    List.length_singleton, List.length_nil]

/-- When scaling-then-predicting succeeds, the input was nonempty, the scaler
was fitted, and every row matched the fitted width; the output has one value
per row. -/
theorem scaleAndPredict_ok (st : OnlineLearner) (X : List (List PFloat)) (v : List ℚ)
    (h : st.scaleAndPredict X = .ok v) :
    v.length = X.length ∧ X ≠ [] ∧
    ∃ w, st.scaler_width = some w ∧ ∀ r ∈ X, r.length = w := by
  unfold OnlineLearner.scaleAndPredict at h
  split at h
  · exact Except.noConfusion h
  · rename_i hne
    split at h
    · exact Except.noConfusion h
    · rename_i w hw
      split at h
      · rename_i hwidth
        split at h
        · refine ⟨?_, by simpa using hne, w, hw, ?_⟩
          · cases h
            simp
          · intro r hr
            simpa using (List.all_eq_true.mp hwidth) r hr
        · exact Except.noConfusion h
      · exact Except.noConfusion h

/-- When the predict try-block succeeds, the output has one value per input
row. -/
theorem predictCore_ok_length (st : OnlineLearner) (t : FTable) (v : List ℚ)
    (h : st.predictCore t = .ok v) : v.length = t.numRows := by
  cases t with
  | feat rows =>
    have h2 := (scaleAndPredict_ok st (rows.map featX) v h).1
    rw [List.length_map] at h2
    exact h2
  | raw rows =>
    unfold OnlineLearner.predictCore at h
    dsimp only at h
    by_cases hs : (rawColsOf rows).hasStrCol = true
    · rw [if_pos hs] at h
      exact Except.noConfusion h
    · rw [if_neg hs] at h
      have h2 := (scaleAndPredict_ok st (rows.map (rawRowX (rawColsOf rows))) v h).1
      rw [List.length_map] at h2
      exact h2

/-- CLAIM C10: predict is total — it returns a vector whose length is the
input row count, and whenever the try-block fails internally it returns the
constant-0.5 default vector of that length instead of propagating the
exception. -/
theorem C10_predict_total (st : OnlineLearner) (t : FTable) :
    (st.predict t).length = t.numRows ∧
    (∀ er, st.predictCore t = .error er →
      st.predict t = List.replicate t.numRows 0.5) := by
  constructor
  · unfold OnlineLearner.predict
    split
    · simp
    · split
      · rename_i v hv
        exact predictCore_ok_length st t v hv
      · simp
  · intro er her
    unfold OnlineLearner.predict
    split
    · rfl
    · rw [her]

/-- CLAIM C10 (witness): on a fitted learner and an empty table the internal
scikit-learn call fails (zero samples) and predict returns the empty default
vector of length 0. -/
theorem C10_witness :
    ((OnlineLearner.init 1000 20 10 zeroTrainer).predict (FTable.raw [])).length
      = (FTable.raw []).numRows ∧
    (OnlineLearner.init 1000 20 10 zeroTrainer).predict (FTable.raw [])
      = List.replicate 0 0.5 :=
  ⟨(C10_predict_total _ _).1,
   (C10_predict_total _ _).2 "ValueError: found array with 0 samples" (by with_unfolding_all rfl)⟩

/-- A learner whose loaded model/scaler pair was fitted on the five-column
feature schema (the state any successful update_model produces). -/
def fittedW5 : OnlineLearner :=
  { learner0 with is_fitted := true, scaler_width := some 5 }

/-- A single-row raw feature frame with four numeric columns (capacity,
local_balance, remote_balance, balance_ratio) — one fewer than the five the
scaler was fitted on. -/
def mismatchRows : List Event :=
  [{ capacity := some 100, local_balance := some 30,
     remote_balance := some 70, balance_ratio := some 0.3 }]

/-- CLAIM C5 (counterexample): on a fitted model and an input whose column
count (4) disagrees with the fitted scaler width (5), the predict try-block
fails on the width mismatch, but predict does not raise anything: it catches
the failure and returns the 0.5 default vector.  There is no
SchemaMismatchError anywhere in the source. -/
theorem C5_counterexample :
    fittedW5.predictCore (FTable.raw mismatchRows) =
      .error "ValueError: X feature width does not match scaler" ∧
    fittedW5.predict (FTable.raw mismatchRows) = [0.5] := by
  constructor <;> with_unfolding_all rfl

/-- CLAIM C5 (amended): when the model is fitted and the input column count
disagrees with the fitted scaler width, predict catches the internal scaling
failure and returns the constant-0.5 vector of the input length; no exception
propagates to the caller. -/
theorem C5_amended (st : OnlineLearner) (rows : List Event) (w : Nat)
    (hf : st.is_fitted = true) (hw : st.scaler_width = some w)
    (hne : rawXWidth rows ≠ w) :
    st.predict (FTable.raw rows) = List.replicate rows.length 0.5 := by
  unfold OnlineLearner.predict
  rw [hf, if_neg (by simp)]
  cases hok : st.predictCore (FTable.raw rows) with
  | error e => rfl
  | ok v =>
    exfalso
    unfold OnlineLearner.predictCore at hok
    dsimp only at hok
    by_cases hs : (rawColsOf rows).hasStrCol = true
    · rw [if_pos hs] at hok
      exact Except.noConfusion hok
    · rw [if_neg hs] at hok
      obtain ⟨-, hXne, w', hw', hall⟩ := scaleAndPredict_ok st _ v hok
      have hww : w' = w := by
        injection hw'.symm.trans hw
      cases rows with
      | nil => exact hXne rfl
      | cons r rs =>
        have hlen := hall (rawRowX (rawColsOf (r :: rs)) r) (by simp)
        rw [rawRowX_length] at hlen
        exact hne (hlen.trans hww)

/-- CLAIM C5 (witness): the fitted learner, the 4-column frame, width 5. -/
theorem C5_amended_witness :
    fittedW5.is_fitted = true ∧ fittedW5.scaler_width = some 5 ∧
    rawXWidth mismatchRows ≠ 5 ∧
    fittedW5.predict (FTable.raw mismatchRows) = List.replicate 1 0.5 :=
  ⟨rfl, rfl, by with_unfolding_all decide,
   C5_amended fittedW5 mismatchRows 5 rfl rfl (by with_unfolding_all decide)⟩

/-- Channel states of two nodes with one imbalanced channel (ratio 0.2, so the
unfitted default prediction 0.5 gives adjustment 0.3 above the 0.1
threshold). -/
def chansC3 : List (String × List ChannelInfo) :=
  [("C", [{ capacity := 200, local_balance := 40,
            remote_balance := 160, remote_pubkey := "cafebabe9876" }]),
   ("D", [])]

/-- CLAIM C3: the clamp the source applies to a suggestion amount does bound
it to the closed interval from 10000 to 1000000 sats — but no recommendation
is ever emitted to be bounded: as soon as a channel qualifies for a
suggestion, generate_suggestions raises KeyError reading row['capacity'],
because process_features dropped the capacity column from the feature table
before the loop reads it back (suggestions_service.py line 237 against
features.py lines 93-103). -/
theorem C3_code_bug :
    (∀ a : Int, 10000 ≤ clampAmount a ∧ clampAmount a ≤ 1000000) ∧
    SuggestionsService.generate_suggestions learner0 0 chansC3 =
      .error "KeyError: capacity" := by
  constructor
  · intro a
    exact ⟨le_max_left _ _, max_le (by norm_num) (min_le_left _ _)⟩
  · with_unfolding_all rfl

/-- Channel states matching the spec scenario: one channel of node A at ratio
0.3 against counterpart node B. -/
def chansC7 : List (String × List ChannelInfo) :=
  [("A", [{ capacity := 100, local_balance := 30,
            remote_balance := 70, remote_pubkey := "deadbeefcafe" }]),
   ("B", [])]

/-- CLAIM C7: empty channel_states do yield the empty list, but generation is
not exception-free: the first input with a channel qualifying for a suggestion
makes generate_suggestions raise KeyError on the capacity column that
process_features dropped, so the exception escapes the method (only the
prediction step is inside a try/except). -/
theorem C7_code_bug :
    SuggestionsService.generate_suggestions learner0 0 [] = .ok [] ∧
    SuggestionsService.generate_suggestions learner0 0 chansC7 =
      .error "KeyError: capacity" := by
  constructor <;> with_unfolding_all rfl
